import Mathlib

/-!
Shallow embedding of the Intel 8080 instruction-execution core of this
repository (src/core.c).  Machine integers are modelled as `Nat` with an
explicit `% 2^8` / `% 2^16` / `% 2^32` wherever the C code truncates by an
assignment to `uint8_t`, `uint16_t` or `uint32_t`.  One-bit condition-code
bitfields are modelled as `Bool`; an assignment of an integer expression to a
one-bit bitfield stores its low bit (`lowBit`).  The process-terminating
`exit(1)` calls of the fatal path are modelled by returning `Except.error`
carrying the state exactly as it was at the moment of the exit.
-/

set_option maxRecDepth 40000

namespace Emu8080

/-- Condition-code flags of the 8080 state (struct condition_codes_t).
Each C bitfield of width 1 is a `Bool` here. -/
structure ConditionCodes where
  z : Bool
  s : Bool
  p : Bool
  cy : Bool
  ac : Bool
  deriving DecidableEq

/-- Processor state (struct state8080_t).  The seven 8-bit registers and the
two 16-bit registers are `Nat` values kept in range by the `%` at every
assignment; memory is a total byte map. -/
structure State8080 where
  a : Nat
  b : Nat
  c : Nat
  d : Nat
  e : Nat
  h : Nat
  l : Nat
  sp : Nat
  pc : Nat
  memory : Nat → Nat
  cc : ConditionCodes
  int_enable : Nat

/-- Write one cell of the byte map (the C `state->memory[addr] = v`). -/
def updMem (m : Nat → Nat) (addr v : Nat) : Nat → Nat :=
  fun i => if i = addr then v else m i

/-- Low bit of a value: what an assignment of an integer to a one-bit C
bitfield stores. -/
def lowBit (n : Nat) : Bool := decide (n % 2 = 1)

/-- Numeric value of a flag when the C code reads the bitfield (0 or 1). -/
def ofBool (b : Bool) : Nat := if b then 1 else 0

/-- C function zero: set iff the low 8 bits of the answer are 0. -/
def zero (answer : Nat) : Bool := decide ((answer &&& 0xff) = 0)

/-- C function sign: as written in the source it is set iff bit 7 of the
answer is CLEAR (inverted sense, reproduced verbatim). -/
def sign (answer : Nat) : Bool := decide ((answer &&& 0x80) = 0)

/-- C function sign32: set iff bit 15 of the answer is clear. -/
def sign32 (answer : Nat) : Bool := decide ((answer &&& 0x8000) = 0)

/-- Loop body of the C parity function: repeatedly clear the lowest set bit
of the low byte, flipping the flag each time.  The C while-loop runs at most
8 iterations because the operand is a byte; the fuel argument (256) is a
strict upper bound that makes the recursion structural. -/
def parityGo : Nat → Nat → Bool → Bool
  | 0, _, p => p
  | _ + 1, 0, p => p
  | fuel + 1, ans + 1, p => parityGo fuel ((ans + 1) &&& ans) (!p)

/-- C function parity: 1 when the number of set bits of the low byte is
odd (the source comment claims the opposite convention; the loop as written
returns 1 for an odd population count, reproduced verbatim). -/
def parity (answer : Nat) : Bool := parityGo 256 (answer &&& 0xff) false

/-- C function carry: set when the untruncated 16-bit answer exceeds 255. -/
def carry (answer : Nat) : Bool := decide (answer > 0xff)

/-- C function carry32: set when the untruncated answer exceeds 65535. -/
def carry32 (answer : Nat) : Bool := decide (answer > 0xffff)

/-- C function auxcarry, verbatim: mask the answer to its low byte, then to
its low five bits, and compare the result against 0xff.  The masked value can
never exceed 0x1f, so this comparison can never hold. -/
def auxcarry (answer : Nat) : Bool :=
  decide (((answer &&& 0xff) &&& 0b00011111) > 0xff)

/-- C function auxcarry32. -/
def auxcarry32 (answer : Nat) : Bool := auxcarry (answer &&& 0xffff)

/-- Flag-selection masks (the C SET_x_FLAG macros). -/
def SET_Z_FLAG : Nat := 1 <<< 7

/-- Sign-select mask. -/
def SET_S_FLAG : Nat := 1 <<< 6

/-- Parity-select mask. -/
def SET_P_FLAG : Nat := 1 <<< 5

/-- Carry-select mask. -/
def SET_CY_FLAG : Nat := 1 <<< 4

/-- Auxiliary-carry-select mask. -/
def SET_AC_FLAG : Nat := 1 <<< 3

/-- Union of all five masks (the C SET_ALL_FLAGS macro). -/
def SET_ALL_FLAGS : Nat :=
  SET_Z_FLAG ||| SET_S_FLAG ||| SET_P_FLAG ||| SET_CY_FLAG ||| SET_AC_FLAG

/-- C function set_flags: each selected flag is recomputed from the answer,
every unselected flag keeps its previous value.  The C body performs five
independent conditional assignments to the five distinct bitfields; they are
rendered here as five conditional field values. -/
def set_flags (st : State8080) (answer flagstoset : Nat) : State8080 :=
  let cleaned := flagstoset &&& 0b11111000
  { st with cc :=
    { z := if cleaned &&& SET_Z_FLAG ≠ 0 then zero answer else st.cc.z
      s := if cleaned &&& SET_S_FLAG ≠ 0 then sign answer else st.cc.s
      p := if cleaned &&& SET_P_FLAG ≠ 0 then parity answer else st.cc.p
      cy := if cleaned &&& SET_CY_FLAG ≠ 0 then carry answer else st.cc.cy
      ac := if cleaned &&& SET_AC_FLAG ≠ 0 then auxcarry answer else st.cc.ac } }

/-- C function set_flags32: the 32-bit variant, splitting the answer into two
16-bit halves for the zero and parity combinations. -/
def set_flags32 (st : State8080) (answer flagstoset : Nat) : State8080 :=
  let cleaned := flagstoset &&& 0b11111000
  let left := answer >>> 16
  let right := answer &&& 0xffff
  { st with cc :=
    { z := if cleaned &&& SET_Z_FLAG ≠ 0 then !(zero left || zero right) else st.cc.z
      s := if cleaned &&& SET_S_FLAG ≠ 0 then sign32 answer else st.cc.s
      p := if cleaned &&& SET_P_FLAG ≠ 0 then parity left == parity right else st.cc.p
      cy := if cleaned &&& SET_CY_FLAG ≠ 0 then carry32 answer else st.cc.cy
      ac := if cleaned &&& SET_AC_FLAG ≠ 0 then auxcarry32 answer else st.cc.ac } }

/-- C function get16bitval: pack two bytes into a 16-bit value. -/
def get16bitval (left right : Nat) : Nat := ((left <<< 8) ||| right) % 0x10000

/-- C function tworeg_add: read a register pair as 16 bits, add val (already
converted to uint16 by the caller), store the truncated halves back and
return the untruncated 32-bit sum.  Result: (new high cell, new low cell,
32-bit sum). -/
def tworeg_add (left right val : Nat) : Nat × Nat × Nat :=
  let summand := get16bitval left right
  let result := (summand + val) % 0x100000000
  ((result >>> 8) % 0x100, result % 0x100, result)

/-- C function read_addr via get16bitval. -/
def read_addr (lv rv : Nat) : Nat := get16bitval lv rv

/-- C function read_hl_addr: the address held in the HL pair. -/
def read_hl_addr (st : State8080) : Nat := read_addr st.h st.l

/-- C function read_hl: the byte addressed by HL. -/
def read_hl (st : State8080) : Nat := st.memory (read_hl_addr st)

/-- C function set_hl: write val to the byte addressed by HL. -/
def set_hl (st : State8080) (val : Nat) : State8080 :=
  { st with memory := updMem st.memory (read_hl_addr st) val }

/-- C function add_x (ADD): A <- A + x with a full flag update from the
untruncated 16-bit sum. -/
def add_x (st : State8080) (x : Nat) : State8080 :=
  let answer := (st.a + x) % 0x10000
  let st1 := set_flags st answer SET_ALL_FLAGS
  { st1 with a := answer % 0x100 }

/-- C function adc_x (ADC): A <- A + x + CY. -/
def adc_x (st : State8080) (x : Nat) : State8080 :=
  let answer := (st.a + ofBool st.cc.cy + x) % 0x10000
  let st1 := set_flags st answer SET_ALL_FLAGS
  { st1 with a := answer % 0x100 }

/-- C function sub_x (SUB): A <- A - x; the int subtraction converted to
uint16 wraps modulo 2^16 (x is a byte in every call). -/
def sub_x (st : State8080) (x : Nat) : State8080 :=
  let answer := (st.a + 0x10000 - x) % 0x10000
  let st1 := set_flags st answer SET_ALL_FLAGS
  { st1 with a := answer % 0x100 }

/-- C function sbb_x (SBB): A <- A - x - CY, wrapping modulo 2^16. -/
def sbb_x (st : State8080) (x : Nat) : State8080 :=
  let answer := (st.a + 0x20000 - x - ofBool st.cc.cy) % 0x10000
  let st1 := set_flags st answer SET_ALL_FLAGS
  { st1 with a := answer % 0x100 }

/-- C function ana_x (ANA): A <- A AND x. -/
def ana_x (st : State8080) (x : Nat) : State8080 :=
  let answer := (st.a &&& x) % 0x10000
  let st1 := set_flags st answer SET_ALL_FLAGS
  { st1 with a := answer % 0x100 }

/-- C function xra_x (XRA): A <- A XOR x. -/
def xra_x (st : State8080) (x : Nat) : State8080 :=
  let answer := (st.a ^^^ x) % 0x10000
  let st1 := set_flags st answer SET_ALL_FLAGS
  { st1 with a := answer % 0x100 }

/-- C function ora_x (ORA): A <- A OR x. -/
def ora_x (st : State8080) (x : Nat) : State8080 :=
  let answer := (st.a ||| x) % 0x10000
  let st1 := set_flags st answer SET_ALL_FLAGS
  { st1 with a := answer % 0x100 }

/-- C function inr_x: increment a cell, updating Z, S, P and AC but not CY.
Returns the flag-updated state and the truncated new cell value; the caller
stores the value back into the cell the C code addressed by pointer. -/
def inr_x (st : State8080) (v : Nat) : State8080 × Nat :=
  let answer := (v + 1) % 0x10000
  let flags := SET_Z_FLAG ||| SET_S_FLAG ||| SET_P_FLAG ||| SET_AC_FLAG
  (set_flags st answer flags, answer % 0x100)

/-- C function dcr_x: decrement a cell (wrapping modulo 2^16 exactly as the
int subtraction converted to uint16 does), updating Z, S, P and AC only. -/
def dcr_x (st : State8080) (v : Nat) : State8080 × Nat :=
  let answer := (v + 0xffff) % 0x10000
  let flags := SET_Z_FLAG ||| SET_S_FLAG ||| SET_P_FLAG ||| SET_AC_FLAG
  (set_flags st answer flags, answer % 0x100)

/-- C function inx_xy: increment a register pair, no flags touched. -/
def inx_xy (left right : Nat) : Nat × Nat :=
  let r := tworeg_add left right 1
  (r.1, r.2.1)

/-- C function dcx_xy: decrement a register pair (the C literal -1 converts
to the uint16 value 0xffff), no flags touched. -/
def dcx_xy (left right : Nat) : Nat × Nat :=
  let r := tworeg_add left right 0xffff
  (r.1, r.2.1)

/-- C function dad_xy: HL <- HL + XY, setting CY from the 32-bit result. -/
def dad_xy (st : State8080) (x y : Nat) : State8080 :=
  let val_to_add := get16bitval x y
  let r := tworeg_add st.h st.l val_to_add
  { st with
    h := r.1
    l := r.2.1
    cc := { st.cc with cy := decide (r.2.2 > 0xffff) } }

/-- C function unimplemented_instr: prints an error and calls exit(1); the
process terminates with the state untouched, modelled as Except.error. -/
def unimplemented_instr (st : State8080) : Except State8080 State8080 :=
  .error st

/-- C function unused_opcode: reads the opcode for the message, prints and
calls exit(1); no state mutation, modelled as Except.error. -/
def unused_opcode (st : State8080) : Except State8080 State8080 :=
  .error st

/-- Switch cases 0x00 to 0x0f of emulate_op. -/
def exec_switch_00 (op : Nat) (st : State8080) : Except State8080 State8080 :=
  let m1 := st.memory (st.pc + 1)
  let m2 := st.memory (st.pc + 2)
  if op = 0x00 then .ok st
  else if op = 0x01 then
    .ok { st with c := m1, b := m2, pc := (st.pc + 2) % 0x10000 }
  else if op = 0x02 then
    .ok { st with memory := updMem st.memory (read_addr st.b st.c) st.a }
  else if op = 0x03 then
    .ok (let r := inx_xy st.b st.c; { st with b := r.1, c := r.2 })
  else if op = 0x04 then
    .ok (let r := inr_x st st.b; { r.1 with b := r.2 })
  else if op = 0x05 then
    .ok (let r := dcr_x st st.b; { r.1 with b := r.2 })
  else if op = 0x06 then
    .ok { st with b := m1, pc := (st.pc + 1) % 0x10000 }
  else if op = 0x07 then
    .ok (let leftmost := st.a >>> 7;
      { st with
        a := ((st.a <<< 1) ||| leftmost) % 0x100
        cc := { st.cc with cy := lowBit leftmost } })
  else if op = 0x08 then unused_opcode st
  else if op = 0x09 then .ok (dad_xy st st.b st.c)
  else if op = 0x0a then
    .ok { st with a := st.memory (read_addr st.b st.c) }
  else if op = 0x0b then
    .ok (let r := dcx_xy st.b st.c; { st with b := r.1, c := r.2 })
  else if op = 0x0c then
    .ok (let r := inr_x st st.c; { r.1 with c := r.2 })
  else if op = 0x0d then
    .ok (let r := dcr_x st st.c; { r.1 with c := r.2 })
  else if op = 0x0e then
    .ok { st with c := m1, pc := (st.pc + 1) % 0x10000 }
  else if op = 0x0f then
    .ok (let rightmost := st.a &&& 1;
      { st with
        a := ((st.a >>> 1) ||| (rightmost <<< 7)) % 0x100
        cc := { st.cc with cy := lowBit rightmost } })
  else .ok st

/-- Switch cases 0x10 to 0x1f of emulate_op. -/
def exec_switch_10 (op : Nat) (st : State8080) : Except State8080 State8080 :=
  let m1 := st.memory (st.pc + 1)
  let m2 := st.memory (st.pc + 2)
  if op = 0x10 then unused_opcode st
  else if op = 0x11 then
    .ok { st with d := m2, e := m1, pc := (st.pc + 2) % 0x10000 }
  else if op = 0x12 then
    .ok { st with memory := updMem st.memory (read_addr st.d st.e) st.a }
  else if op = 0x13 then
    .ok (let r := inx_xy st.d st.e; { st with d := r.1, e := r.2 })
  else if op = 0x14 then
    .ok (let r := inr_x st st.d; { r.1 with d := r.2 })
  else if op = 0x15 then
    .ok (let r := dcr_x st st.d; { r.1 with d := r.2 })
  else if op = 0x16 then
    .ok { st with d := m1, pc := (st.pc + 1) % 0x10000 }
  else if op = 0x17 then
    .ok (let leftmost := st.a >>> 7;
      let prev_cy := ofBool st.cc.cy;
      { st with
        a := ((st.a <<< 1) ||| prev_cy) % 0x100
        cc := { st.cc with cy := lowBit leftmost } })
  else if op = 0x18 then unused_opcode st
  else if op = 0x19 then .ok (dad_xy st st.d st.e)
  else if op = 0x1a then
    .ok { st with a := st.memory (read_addr st.d st.e) }
  else if op = 0x1b then
    .ok (let r := dcx_xy st.d st.e; { st with d := r.1, e := r.2 })
  else if op = 0x1c then
    .ok (let r := inr_x st st.e; { r.1 with e := r.2 })
  else if op = 0x1d then
    .ok (let r := dcr_x st st.e; { r.1 with e := r.2 })
  else if op = 0x1e then
    .ok { st with e := m1, pc := (st.pc + 1) % 0x10000 }
  else if op = 0x1f then
    .ok (let rightmost := st.a &&& 1;
      let prev_cy := ofBool st.cc.cy;
      { st with
        a := ((st.a >>> 1) ||| (prev_cy <<< 7)) % 0x100
        cc := { st.cc with cy := lowBit rightmost } })
  else .ok st

/-- Switch cases 0x20 to 0x2f of emulate_op. -/
def exec_switch_20 (op : Nat) (st : State8080) : Except State8080 State8080 :=
  let m1 := st.memory (st.pc + 1)
  let m2 := st.memory (st.pc + 2)
  if op = 0x20 then unused_opcode st
  else if op = 0x21 then
    .ok { st with h := m2, l := m1, pc := (st.pc + 2) % 0x10000 }
  else if op = 0x22 then
    .ok (let addr := get16bitval m1 m2;
      { st with
        memory := updMem (updMem st.memory addr st.l) (addr + 1) st.h
        pc := (st.pc + 2) % 0x10000 })
  else if op = 0x23 then
    .ok (let r := inx_xy st.h st.l; { st with h := r.1, l := r.2 })
  else if op = 0x24 then
    .ok (let r := inr_x st st.h; { r.1 with h := r.2 })
  else if op = 0x25 then
    .ok (let r := dcr_x st st.h; { r.1 with h := r.2 })
  else if op = 0x26 then
    .ok { st with h := m1, pc := (st.pc + 1) % 0x10000 }
  else if op = 0x27 then
    .ok (let least4 := st.a &&& 0xf;
      let st1 := if least4 > 9 || st.cc.ac then
          let answer := (st.a + 6) % 0x10000
          let s1 := set_flags st answer SET_ALL_FLAGS
          { s1 with a := answer % 0x100 }
        else st;
      let most4 := st1.a >>> 4;
      let most4 := if most4 > 9 || st1.cc.cy then (most4 + 6) % 0x100 else most4;
      let answer := ((most4 <<< 4) ||| least4) % 0x10000;
      let s2 := set_flags st1 answer SET_ALL_FLAGS;
      { s2 with a := answer % 0x100 })
  else if op = 0x28 then unused_opcode st
  else if op = 0x29 then .ok (dad_xy st st.h st.l)
  else if op = 0x2a then
    .ok (let addr := get16bitval m1 m2;
      { st with
        l := st.memory addr
        h := st.memory (addr + 1)
        pc := (st.pc + 2) % 0x10000 })
  else if op = 0x2b then
    .ok (let r := dcx_xy st.h st.l; { st with h := r.1, l := r.2 })
  else if op = 0x2c then
    .ok (let r := inr_x st st.l; { r.1 with l := r.2 })
  else if op = 0x2d then
    .ok (let r := dcr_x st st.l; { r.1 with l := r.2 })
  else if op = 0x2e then
    .ok { st with l := m1, pc := (st.pc + 1) % 0x10000 }
  else if op = 0x2f then
    .ok { st with a := (st.a % 0x100) ^^^ 0xff }
  else .ok st

/-- Switch cases 0x30 to 0x3f of emulate_op. -/
def exec_switch_30 (op : Nat) (st : State8080) : Except State8080 State8080 :=
  let m1 := st.memory (st.pc + 1)
  let m2 := st.memory (st.pc + 2)
  if op = 0x30 then unused_opcode st
  else if op = 0x31 then
    .ok { st with sp := ((m2 <<< 8) ||| m1) % 0x10000, pc := (st.pc + 2) % 0x10000 }
  else if op = 0x32 then
    .ok { st with
      memory := updMem st.memory (get16bitval m1 m2) st.a
      pc := (st.pc + 2) % 0x10000 }
  else if op = 0x33 then
    .ok { st with sp := (st.sp + 1) % 0x10000 }
  else if op = 0x34 then
    .ok (let offset := read_hl_addr st;
      let r := inr_x st (st.memory offset);
      { r.1 with memory := updMem r.1.memory offset r.2 })
  else if op = 0x35 then
    .ok (let offset := read_hl_addr st;
      let r := dcr_x st (st.memory offset);
      { r.1 with memory := updMem r.1.memory offset r.2 })
  else if op = 0x36 then
    .ok { st with
      memory := updMem st.memory (read_hl_addr st) m1
      pc := (st.pc + 1) % 0x10000 }
  else if op = 0x37 then
    .ok { st with cc := { st.cc with cy := true } }
  else if op = 0x38 then unused_opcode st
  else if op = 0x39 then
    .ok (let r := tworeg_add st.h st.l st.sp;
      { st with
        h := r.1
        l := r.2.1
        cc := { st.cc with cy := decide (r.2.2 > 0xffff) } })
  else if op = 0x3a then
    .ok { st with a := st.memory (get16bitval m1 m2), pc := (st.pc + 2) % 0x10000 }
  else if op = 0x3b then
    .ok { st with sp := (st.sp + 0xffff) % 0x10000 }
  else if op = 0x3c then
    .ok (let r := inr_x st st.a; { r.1 with a := r.2 })
  else if op = 0x3d then
    .ok (let r := dcr_x st st.a; { r.1 with a := r.2 })
  else if op = 0x3e then
    .ok { st with a := m1, pc := (st.pc + 1) % 0x10000 }
  else if op = 0x3f then
    .ok { st with cc := { st.cc with cy := !st.cc.cy } }
  else .ok st

/-- Switch cases 0x40 to 0x4f of emulate_op. -/
def exec_switch_40 (op : Nat) (st : State8080) : Except State8080 State8080 :=
  if op = 0x40 then .ok { st with b := st.b }
  else if op = 0x41 then .ok { st with b := st.c }
  else if op = 0x42 then .ok { st with b := st.d }
  else if op = 0x43 then .ok { st with b := st.e }
  else if op = 0x44 then .ok { st with b := st.h }
  else if op = 0x45 then .ok { st with b := st.l }
  else if op = 0x46 then .ok { st with b := read_hl st }
  else if op = 0x47 then .ok { st with b := st.a }
  else if op = 0x48 then .ok { st with c := st.b }
  else if op = 0x49 then .ok { st with c := st.c }
  else if op = 0x4a then .ok { st with c := st.d }
  else if op = 0x4b then .ok { st with c := st.e }
  else if op = 0x4c then .ok { st with c := st.h }
  else if op = 0x4d then .ok { st with c := st.l }
  else if op = 0x4e then .ok { st with c := read_hl st }
  else if op = 0x4f then .ok { st with c := st.a }
  else .ok st

/-- Switch cases 0x50 to 0x5f of emulate_op. -/
def exec_switch_50 (op : Nat) (st : State8080) : Except State8080 State8080 :=
  if op = 0x50 then .ok { st with d := st.b }
  else if op = 0x51 then .ok { st with d := st.c }
  else if op = 0x52 then .ok { st with d := st.d }
  else if op = 0x53 then .ok { st with d := st.e }
  else if op = 0x54 then .ok { st with d := st.h }
  else if op = 0x55 then .ok { st with d := st.l }
  else if op = 0x56 then .ok { st with d := read_hl st }
  else if op = 0x57 then .ok { st with d := st.a }
  else if op = 0x58 then .ok { st with e := st.b }
  else if op = 0x59 then .ok { st with e := st.c }
  else if op = 0x5a then .ok { st with e := st.d }
  else if op = 0x5b then .ok { st with e := st.e }
  else if op = 0x5c then .ok { st with e := st.h }
  else if op = 0x5d then .ok { st with e := st.l }
  else if op = 0x5e then .ok { st with e := read_hl st }
  else if op = 0x5f then .ok { st with e := st.a }
  else .ok st

/-- Switch cases 0x60 to 0x6f of emulate_op. -/
def exec_switch_60 (op : Nat) (st : State8080) : Except State8080 State8080 :=
  if op = 0x60 then .ok { st with h := st.b }
  else if op = 0x61 then .ok { st with h := st.c }
  else if op = 0x62 then .ok { st with h := st.d }
  else if op = 0x63 then .ok { st with h := st.e }
  else if op = 0x64 then .ok { st with h := st.h }
  else if op = 0x65 then .ok { st with h := st.l }
  else if op = 0x66 then .ok { st with h := read_hl st }
  else if op = 0x67 then .ok { st with h := st.a }
  else if op = 0x68 then .ok { st with l := st.b }
  else if op = 0x69 then .ok { st with l := st.c }
  else if op = 0x6a then .ok { st with l := st.d }
  else if op = 0x6b then .ok { st with l := st.e }
  else if op = 0x6c then .ok { st with l := st.h }
  else if op = 0x6d then .ok { st with l := st.l }
  else if op = 0x6e then .ok { st with l := read_hl st }
  else if op = 0x6f then .ok { st with l := st.a }
  else .ok st

/-- Switch cases 0x70 to 0x7f of emulate_op. -/
def exec_switch_70 (op : Nat) (st : State8080) : Except State8080 State8080 :=
  if op = 0x70 then .ok (set_hl st st.b)
  else if op = 0x71 then .ok (set_hl st st.c)
  else if op = 0x72 then .ok (set_hl st st.d)
  else if op = 0x73 then .ok (set_hl st st.e)
  else if op = 0x74 then .ok (set_hl st st.h)
  else if op = 0x75 then .ok (set_hl st st.l)
  else if op = 0x76 then unimplemented_instr st
  else if op = 0x77 then .ok (set_hl st st.a)
  else if op = 0x78 then .ok { st with a := st.b }
  else if op = 0x79 then .ok { st with a := st.c }
  else if op = 0x7a then .ok { st with a := st.d }
  else if op = 0x7b then .ok { st with a := st.e }
  else if op = 0x7c then .ok { st with a := st.h }
  else if op = 0x7d then .ok { st with a := st.l }
  else if op = 0x7e then .ok { st with a := read_hl st }
  else if op = 0x7f then .ok { st with a := st.a }
  else .ok st

/-- Switch cases 0x80 to 0x8f of emulate_op. -/
def exec_switch_80 (op : Nat) (st : State8080) : Except State8080 State8080 :=
  if op = 0x80 then .ok (add_x st st.b)
  else if op = 0x81 then .ok (add_x st st.c)
  else if op = 0x82 then .ok (add_x st st.d)
  else if op = 0x83 then .ok (add_x st st.e)
  else if op = 0x84 then .ok (add_x st st.h)
  else if op = 0x85 then .ok (add_x st st.l)
  else if op = 0x86 then .ok (add_x st (read_hl st))
  else if op = 0x87 then .ok (add_x st st.a)
  else if op = 0x88 then .ok (adc_x st st.b)
  else if op = 0x89 then .ok (adc_x st st.c)
  else if op = 0x8a then .ok (adc_x st st.d)
  else if op = 0x8b then .ok (adc_x st st.e)
  else if op = 0x8c then .ok (adc_x st st.h)
  else if op = 0x8d then .ok (adc_x st st.l)
  else if op = 0x8e then
    .ok (let s1 := adc_x st (read_hl st); adc_x s1 s1.a)
  else if op = 0x8f then .ok (adc_x st st.a)
  else .ok st

/-- Switch cases 0x90 to 0x9f of emulate_op. -/
def exec_switch_90 (op : Nat) (st : State8080) : Except State8080 State8080 :=
  if op = 0x90 then .ok (sub_x st st.b)
  else if op = 0x91 then .ok (sub_x st st.c)
  else if op = 0x92 then .ok (sub_x st st.d)
  else if op = 0x93 then .ok (sub_x st st.e)
  else if op = 0x94 then .ok (sub_x st st.h)
  else if op = 0x95 then .ok (sub_x st st.l)
  else if op = 0x96 then .ok (sub_x st (read_hl st))
  else if op = 0x97 then .ok (sub_x st st.a)
  else if op = 0x98 then .ok (sbb_x st st.b)
  else if op = 0x99 then .ok (sbb_x st st.c)
  else if op = 0x9a then .ok (sbb_x st st.d)
  else if op = 0x9b then .ok (sbb_x st st.e)
  else if op = 0x9c then .ok (sbb_x st st.h)
  else if op = 0x9d then .ok (sbb_x st st.l)
  else if op = 0x9e then .ok (sbb_x st (read_hl st))
  else if op = 0x9f then .ok (sbb_x st st.a)
  else .ok st

/-- Switch cases 0xa0 to 0xaf of emulate_op. -/
def exec_switch_a0 (op : Nat) (st : State8080) : Except State8080 State8080 :=
  if op = 0xa0 then .ok (ana_x st st.b)
  else if op = 0xa1 then .ok (ana_x st st.c)
  else if op = 0xa2 then .ok (ana_x st st.d)
  else if op = 0xa3 then .ok (ana_x st st.e)
  else if op = 0xa4 then .ok (ana_x st st.h)
  else if op = 0xa5 then .ok (ana_x st st.l)
  else if op = 0xa6 then .ok (ana_x st (read_hl st))
  else if op = 0xa7 then .ok (ana_x st st.a)
  else if op = 0xa8 then .ok (xra_x st st.b)
  else if op = 0xa9 then .ok (xra_x st st.c)
  else if op = 0xaa then .ok (xra_x st st.d)
  else if op = 0xab then .ok (xra_x st st.e)
  else if op = 0xac then .ok (xra_x st st.h)
  else if op = 0xad then .ok (xra_x st st.l)
  else if op = 0xae then .ok (xra_x st (read_hl st))
  else if op = 0xaf then .ok (xra_x st st.a)
  else .ok st

/-- Switch cases 0xb0 to 0xbf of emulate_op. -/
def exec_switch_b0 (op : Nat) (st : State8080) : Except State8080 State8080 :=
  if op = 0xb0 then .ok (ora_x st st.b)
  else if op = 0xb1 then .ok (ora_x st st.c)
  else if op = 0xb2 then .ok (ora_x st st.d)
  else if op = 0xb3 then .ok (ora_x st st.e)
  else if op = 0xb4 then .ok (ora_x st st.h)
  else if op = 0xb5 then .ok (ora_x st st.l)
  else if op = 0xb6 then .ok (ora_x st (read_hl st))
  else if op = 0xb7 then .ok (ora_x st st.a)
  else if op = 0xb8 then unimplemented_instr st
  else if op = 0xb9 then unimplemented_instr st
  else if op = 0xba then unimplemented_instr st
  else if op = 0xbb then unimplemented_instr st
  else if op = 0xbc then unimplemented_instr st
  else if op = 0xbd then unimplemented_instr st
  else if op = 0xbe then unimplemented_instr st
  else if op = 0xbf then unimplemented_instr st
  else .ok st

/-- Switch cases 0xc0 to 0xcf of emulate_op. -/
def exec_switch_c0 (op : Nat) (st : State8080) : Except State8080 State8080 :=
  let m1 := st.memory (st.pc + 1)
  let m2 := st.memory (st.pc + 2)
  if op = 0xc0 then unimplemented_instr st
  else if op = 0xc1 then unimplemented_instr st
  else if op = 0xc2 then
    .ok (if st.cc.z = false then { st with pc := ((m2 <<< 8) ||| m1) % 0x10000 }
      else { st with pc := (st.pc + 2) % 0x10000 })
  else if op = 0xc3 then
    .ok { st with pc := ((m2 <<< 8) ||| m1) % 0x10000 }
  else if op = 0xc4 then unimplemented_instr st
  else if op = 0xc5 then unimplemented_instr st
  else if op = 0xc6 then
    .ok (let answer := (st.a + m1) % 0x10000;
      let s1 := set_flags st answer SET_ALL_FLAGS;
      { s1 with pc := (s1.pc + 1) % 0x10000 })
  else if op = 0xc7 then unimplemented_instr st
  else if op = 0xc8 then unimplemented_instr st
  else if op = 0xc9 then unimplemented_instr st
  else if op = 0xca then unimplemented_instr st
  else if op = 0xcb then unimplemented_instr st
  else if op = 0xcc then unimplemented_instr st
  else if op = 0xcd then unimplemented_instr st
  else if op = 0xce then
    .ok (let answer := (st.a + m1 + ofBool st.cc.cy) % 0x10000;
      let s1 := set_flags st answer SET_ALL_FLAGS;
      { s1 with a := answer % 0x100, pc := (s1.pc + 1) % 0x10000 })
  else if op = 0xcf then unimplemented_instr st
  else .ok st

/-- Switch cases 0xd0 to 0xdf of emulate_op. -/
def exec_switch_d0 (op : Nat) (st : State8080) : Except State8080 State8080 :=
  let m1 := st.memory (st.pc + 1)
  if op = 0xd0 then unimplemented_instr st
  else if op = 0xd1 then unimplemented_instr st
  else if op = 0xd2 then unimplemented_instr st
  else if op = 0xd3 then unimplemented_instr st
  else if op = 0xd4 then unimplemented_instr st
  else if op = 0xd5 then unimplemented_instr st
  else if op = 0xd6 then
    .ok (let answer := (st.a + 0x10000 - m1) % 0x10000;
      let s1 := set_flags st answer SET_ALL_FLAGS;
      { s1 with a := answer % 0x100, pc := (s1.pc + 1) % 0x10000 })
  else if op = 0xd7 then unimplemented_instr st
  else if op = 0xd8 then unimplemented_instr st
  else if op = 0xd9 then unimplemented_instr st
  else if op = 0xda then unimplemented_instr st
  else if op = 0xdb then unimplemented_instr st
  else if op = 0xdc then unimplemented_instr st
  else if op = 0xdd then unimplemented_instr st
  else if op = 0xde then unimplemented_instr st
  else if op = 0xdf then unimplemented_instr st
  else .ok st

/-- Switch cases 0xe0 to 0xef of emulate_op. -/
def exec_switch_e0 (op : Nat) (st : State8080) : Except State8080 State8080 :=
  let m1 := st.memory (st.pc + 1)
  if op = 0xe0 then unimplemented_instr st
  else if op = 0xe1 then unimplemented_instr st
  else if op = 0xe2 then unimplemented_instr st
  else if op = 0xe3 then unimplemented_instr st
  else if op = 0xe4 then unimplemented_instr st
  else if op = 0xe5 then unimplemented_instr st
  else if op = 0xe6 then
    .ok (let answer := (st.a &&& m1) % 0x10000;
      let s1 := set_flags st answer SET_ALL_FLAGS;
      { s1 with a := answer % 0x100, pc := (s1.pc + 1) % 0x10000 })
  else if op = 0xe7 then unimplemented_instr st
  else if op = 0xe8 then unimplemented_instr st
  else if op = 0xe9 then unimplemented_instr st
  else if op = 0xea then unimplemented_instr st
  else if op = 0xeb then unimplemented_instr st
  else if op = 0xec then unimplemented_instr st
  else if op = 0xed then unimplemented_instr st
  else if op = 0xee then unimplemented_instr st
  else if op = 0xef then unimplemented_instr st
  else .ok st

/-- Switch cases 0xf0 to 0xff of emulate_op. -/
def exec_switch_f0 (op : Nat) (st : State8080) : Except State8080 State8080 :=
  let m1 := st.memory (st.pc + 1)
  if op = 0xf0 then unimplemented_instr st
  else if op = 0xf1 then unimplemented_instr st
  else if op = 0xf2 then unimplemented_instr st
  else if op = 0xf3 then unimplemented_instr st
  else if op = 0xf4 then unimplemented_instr st
  else if op = 0xf5 then unimplemented_instr st
  else if op = 0xf6 then
    .ok (let answer := (st.a ||| m1) % 0x10000;
      let s1 := set_flags st answer SET_ALL_FLAGS;
      { s1 with a := answer % 0x100, pc := (s1.pc + 1) % 0x10000 })
  else if op = 0xf7 then unimplemented_instr st
  else if op = 0xf8 then unimplemented_instr st
  else if op = 0xf9 then unimplemented_instr st
  else if op = 0xfa then unimplemented_instr st
  else if op = 0xfb then unimplemented_instr st
  else if op = 0xfc then unimplemented_instr st
  else if op = 0xfd then unimplemented_instr st
  else if op = 0xfe then unimplemented_instr st
  else if op = 0xff then unimplemented_instr st
  else .ok st

/-- Body of the switch statement of emulate_op, one branch per opcode byte,
rendered as a dispatch on the high nibble into sixteen case groups (the C
switch is a single flat 256-way selection; the grouping only renders that
selection, each opcode value still has exactly the body of its C case).
Operand bytes are read through the opcode pointer, i.e. at pc + 1 and
pc + 2 without 16-bit wrap (C pointer arithmetic).  The case 0x8e has no
break in the source and falls through into case 0x8f.  An opcode value
with no case (impossible for a byte) falls out of the switch unchanged. -/
def exec_switch (op : Nat) (st : State8080) : Except State8080 State8080 :=
  if op < 0x10 then exec_switch_00 op st
  else if op < 0x20 then exec_switch_10 op st
  else if op < 0x30 then exec_switch_20 op st
  else if op < 0x40 then exec_switch_30 op st
  else if op < 0x50 then exec_switch_40 op st
  else if op < 0x60 then exec_switch_50 op st
  else if op < 0x70 then exec_switch_60 op st
  else if op < 0x80 then exec_switch_70 op st
  else if op < 0x90 then exec_switch_80 op st
  else if op < 0xa0 then exec_switch_90 op st
  else if op < 0xb0 then exec_switch_a0 op st
  else if op < 0xc0 then exec_switch_b0 op st
  else if op < 0xd0 then exec_switch_c0 op st
  else if op < 0xe0 then exec_switch_d0 op st
  else if op < 0xf0 then exec_switch_e0 op st
  else if op < 0x100 then exec_switch_f0 op st
  else .ok st

/-- C function emulate_op: read the opcode byte at PC, run the switch, then
apply the trailing unconditional `state->pc += 1`.  The trailing increment is
skipped on the fatal path because exit(1) never returns. -/
def emulate_op (st : State8080) : Except State8080 State8080 :=
  match exec_switch (st.memory st.pc) st with
  | .error s1 => .error s1
  | .ok s1 => .ok { s1 with pc := (s1.pc + 1) % 0x10000 }


/-- Opcode-byte list of the INR and DCR family (single register and the
HL-addressed memory cell). -/
def inrDcrOpcodes : List Nat :=
  [0x04, 0x0c, 0x14, 0x1c, 0x24, 0x2c, 0x34, 0x3c,
   0x05, 0x0d, 0x15, 0x1d, 0x25, 0x2d, 0x35, 0x3d]

/-- Opcode-byte list of the INX and DCX family (register pairs and SP). -/
def inxDcxOpcodes : List Nat :=
  [0x03, 0x13, 0x23, 0x33, 0x0b, 0x1b, 0x2b, 0x3b]

/-- Opcode bytes of the register-to-itself moves MOV r,r. -/
def selfMovOpcodes : List Nat :=
  [0x40, 0x49, 0x52, 0x5b, 0x64, 0x6d, 0x7f]

/-- Every opcode byte the dispatcher routes to the fatal path, i.e. to
unused_opcode (reserved slots) or unimplemented_instr (including HLT 0x76). -/
def fatalOpcodes : List Nat :=
  [0x08, 0x10, 0x18, 0x20, 0x28, 0x30, 0x38, 0x76,
   0xb8, 0xb9, 0xba, 0xbb, 0xbc, 0xbd, 0xbe, 0xbf,
   0xc0, 0xc1, 0xc4, 0xc5, 0xc7, 0xc8, 0xc9, 0xca, 0xcb, 0xcc, 0xcd, 0xcf,
   0xd0, 0xd1, 0xd2, 0xd3, 0xd4, 0xd5, 0xd7, 0xd8, 0xd9, 0xda, 0xdb, 0xdc,
   0xdd, 0xde, 0xdf, 0xe0, 0xe1, 0xe2, 0xe3, 0xe4, 0xe5, 0xe7, 0xe8, 0xe9,
   0xea, 0xeb, 0xec, 0xed, 0xee, 0xef, 0xf0, 0xf1, 0xf2, 0xf3, 0xf4, 0xf5,
   0xf7, 0xf8, 0xf9, 0xfa, 0xfb, 0xfc, 0xfd, 0xfe, 0xff]

/-- Program counter of the state a dispatch ended in (ok or fatal). -/
def resPC (r : Except State8080 State8080) : Nat :=
  match r with
  | .ok s1 => s1.pc
  | .error s1 => s1.pc

/-- Accumulator of the state a dispatch ended in. -/
def resA (r : Except State8080 State8080) : Nat :=
  match r with
  | .ok s1 => s1.a
  | .error s1 => s1.a

/-- Carry flag of the state a dispatch ended in. -/
def resCY (r : Except State8080 State8080) : Bool :=
  match r with
  | .ok s1 => s1.cc.cy
  | .error s1 => s1.cc.cy

/-- Full flag record of the state a dispatch ended in. -/
def resCC (r : Except State8080 State8080) : ConditionCodes :=
  match r with
  | .ok s1 => s1.cc
  | .error s1 => s1.cc

/-- True when the dispatch completed without hitting the fatal path. -/
def isOk (r : Except State8080 State8080) : Bool :=
  match r with
  | .ok _ => true
  | .error _ => false

/-- Memory image from a list of bytes loaded at address 0, zero elsewhere
(the driver zero-fills memory and copies the program to offset 0). -/
def memOf (bytes : List Nat) : Nat → Nat := fun i => bytes.getD i 0

/-- All-clear flag record: how the driver initialises the flags. -/
def zeroCC : ConditionCodes :=
  { z := false, s := false, p := false, cy := false, ac := false }

/-- Freshly initialised processor state (all registers, flags, SP, PC zero,
memory empty), as built by load_and_run in src/emu.c. -/
def zeroState : State8080 :=
  { a := 0, b := 0, c := 0, d := 0, e := 0, h := 0, l := 0, sp := 0, pc := 0,
    memory := memOf [], cc := zeroCC, int_enable := 0 }

/-- Program: JMP 0x0100 at address 0. -/
def jmpState : State8080 :=
  { zeroState with memory := memOf [0xc3, 0x00, 0x01] }

/-- Program: ADI 0x02 at address 0, accumulator 1. -/
def adiState : State8080 :=
  { zeroState with a := 1, memory := memOf [0xc6, 0x02] }

/-- Program: ADC M at address 0 with HL = 0x2000, memory cell 0x2000 = 2 and
accumulator 1, carry clear. -/
def adcmState : State8080 :=
  { zeroState with
    a := 1
    h := 0x20
    memory := fun i => if i = 0 then 0x8e else if i = 0x2000 then 2 else 0 }

/-- Program: DAA at address 0 with accumulator 0x9b, AC = 0, CY = 0. -/
def daaState : State8080 :=
  { zeroState with a := 0x9b, memory := memOf [0x27] }

/-- Program: JNZ 0x0100 at address 0 with the Zero flag clear (jump taken). -/
def jnzTakenState : State8080 :=
  { zeroState with memory := memOf [0xc2, 0x00, 0x01] }

/-- Program: JNZ 0x0100 at address 0 with the Zero flag set (not taken). -/
def jnzNotTakenState : State8080 :=
  { zeroState with
    cc := { zeroCC with z := true }
    memory := memOf [0xc2, 0x00, 0x01] }

/-- Program: HLT at address 0. -/
def hltState : State8080 :=
  { zeroState with memory := memOf [0x76] }

/-- Program: INR B at address 0 with B = 0xff and carry set. -/
def inrState : State8080 :=
  { zeroState with
    b := 0xff
    cc := { zeroCC with cy := true }
    memory := memOf [0x04] }

/-- Program: INX B at address 0 with BC = 0xffff and carry set. -/
def inxState : State8080 :=
  { zeroState with
    b := 0xff
    c := 0xff
    cc := { zeroCC with cy := true }
    memory := memOf [0x03] }

/-- Program: RAL then RAR with accumulator 0xb5 and carry set. -/
def ralRarState : State8080 :=
  { zeroState with
    a := 0xb5
    cc := { zeroCC with cy := true }
    memory := memOf [0x17, 0x1f] }

/-- Program: MOV B,B at address 0. -/
def movState : State8080 :=
  { zeroState with memory := memOf [0x40] }


/-- C1: the unconditional jump 0xC3 with target bytes 0x00 0x01 (little
endian 0x0100) does NOT leave PC at 0x0100: the dispatcher applies its
trailing unconditional PC increment after the jump already set PC, so the
run lands at 0x0101, one byte past the target. -/
theorem c1_jmp_lands_one_past_target :
    isOk (emulate_op jmpState) = true ∧ resPC (emulate_op jmpState) = 0x0101 :=
  ⟨rfl, rfl⟩

/-- C2: the add-immediate opcode 0xC6 computes the sum 1 + 2 = 3 and updates
the flags from it, but never stores the truncated sum into the accumulator:
A is still 1 after the dispatch (the claim expects 3).  The flag half of the
claim does hold: the flags come from the untruncated sum 3. -/
theorem c2_adi_skips_accumulator_store :
    resA (emulate_op adiState) = 1 ∧
    resPC (emulate_op adiState) = 2 ∧
    resCC (emulate_op adiState) =
      (set_flags adiState ((adiState.a + 0x02) % 0x10000) SET_ALL_FLAGS).cc :=
  ⟨rfl, rfl, rfl⟩

/-- C3: opcode 0x8E (ADC M) has no break in the source and falls through
into case 0x8F (ADC A), so the add-with-carry happens twice: with A = 1,
CY = 0 and memory[HL] = 2 the accumulator ends at 6, not at the 3 the claim
requires. -/
theorem c3_adc_hl_falls_through :
    resA (emulate_op adcmState) = 6 ∧ isOk (emulate_op adcmState) = true :=
  ⟨rfl, rfl⟩

/-- C4: decimal adjust on accumulator 0x9B with AC = 0 and CY = 0 ends with
accumulator 0x0B and CY = 1, not the 0x01 of the claim: the source
recombines the high nibble with the low nibble captured BEFORE the first
correction step instead of the corrected one. -/
theorem c4_daa_example_yields_0x0b :
    resA (emulate_op daaState) = 0x0b ∧ resCY (emulate_op daaState) = true :=
  ⟨rfl, rfl⟩

/-- C5: the conditional jump 0xC2 behaves as claimed when Zero = 1 (PC ends
at opcode address + 3), but with Zero = 0 the taken jump to 0x0100 lands at
0x0101 because of the trailing PC increment, violating the claim. -/
theorem c5_jnz_taken_lands_one_past_target :
    resPC (emulate_op jnzTakenState) = 0x0101 ∧
    resPC (emulate_op jnzNotTakenState) = 3 :=
  ⟨rfl, rfl⟩

/-- C6: auxcarry returns false on every input, and therefore every flag
update whose mask selects AC (both the 16-bit and the 32-bit flag engine)
writes AC = 0 regardless of the operands. -/
theorem c6_auxcarry_always_false (st : State8080) (answer flagstoset : Nat) :
    auxcarry answer = false ∧
    ((flagstoset &&& 0b11111000) &&& SET_AC_FLAG ≠ 0 →
      (set_flags st answer flagstoset).cc.ac = false) ∧
    ((flagstoset &&& 0b11111000) &&& SET_AC_FLAG ≠ 0 →
      (set_flags32 st answer flagstoset).cc.ac = false) := by
  have hac : ∀ n : Nat, auxcarry n = false := by
    intro n
    have h1 : (n &&& 0xff) &&& 0b00011111 ≤ 0b00011111 := Nat.and_le_right
    unfold auxcarry
    simp only [decide_eq_false_iff_not]
    omega
  refine ⟨hac answer, fun hsel => ?_, fun hsel => ?_⟩
  · show (if (flagstoset &&& 0b11111000) &&& SET_AC_FLAG ≠ 0 then
        auxcarry answer else st.cc.ac) = false
    rw [if_pos hsel]
    exact hac answer
  · show (if (flagstoset &&& 0b11111000) &&& SET_AC_FLAG ≠ 0 then
        auxcarry32 answer else st.cc.ac) = false
    rw [if_pos hsel]
    exact hac (answer &&& 0xffff)

/-- Witness for C6 at the concrete answer 0x18 (a sum that on real hardware
would carry out of bit 3) and the full flag mask. -/
theorem c6_auxcarry_always_false_witness :
    auxcarry 0x18 = false ∧
    (set_flags zeroState 0x18 SET_ALL_FLAGS).cc.ac = false ∧
    (set_flags32 zeroState 0x18 SET_ALL_FLAGS).cc.ac = false :=
  ⟨(c6_auxcarry_always_false zeroState 0x18 SET_ALL_FLAGS).1,
   (c6_auxcarry_always_false zeroState 0x18 SET_ALL_FLAGS).2.1 (by decide),
   (c6_auxcarry_always_false zeroState 0x18 SET_ALL_FLAGS).2.2 (by decide)⟩

/-- C7: whenever the opcode byte at PC is routed to the fatal path
(a reserved slot, an unimplemented opcode, or HLT 0x76), the dispatch
terminates the run fatally and the state at termination is exactly the
starting state: no register, flag, SP, PC or memory cell was mutated. -/
theorem c7_fatal_opcode_exits_without_mutation (st : State8080) (op : Nat)
    (hop : st.memory st.pc = op) (hmem : op ∈ fatalOpcodes) :
    emulate_op st = .error st := by
  fin_cases hmem <;> (unfold emulate_op; rw [hop]) <;> rfl

/-- Witness for C7: HLT at address 0 exits with the state untouched. -/
theorem c7_fatal_witness : emulate_op hltState = .error hltState :=
  c7_fatal_opcode_exits_without_mutation hltState 0x76 rfl (by decide)

/-- Dispatch of opcode 0x04 (INR/DCR family) leaves the Carry flag unchanged. -/
theorem cy_frame_04 (st : State8080) (hop : st.memory st.pc = 0x04) :
    resCY (emulate_op st) = st.cc.cy := by
  unfold emulate_op; rw [hop]; rfl

/-- Dispatch of opcode 0x0c (INR/DCR family) leaves the Carry flag unchanged. -/
theorem cy_frame_0c (st : State8080) (hop : st.memory st.pc = 0x0c) :
    resCY (emulate_op st) = st.cc.cy := by
  unfold emulate_op; rw [hop]; rfl

/-- Dispatch of opcode 0x14 (INR/DCR family) leaves the Carry flag unchanged. -/
theorem cy_frame_14 (st : State8080) (hop : st.memory st.pc = 0x14) :
    resCY (emulate_op st) = st.cc.cy := by
  unfold emulate_op; rw [hop]; rfl

/-- Dispatch of opcode 0x1c (INR/DCR family) leaves the Carry flag unchanged. -/
theorem cy_frame_1c (st : State8080) (hop : st.memory st.pc = 0x1c) :
    resCY (emulate_op st) = st.cc.cy := by
  unfold emulate_op; rw [hop]; rfl

/-- Dispatch of opcode 0x24 (INR/DCR family) leaves the Carry flag unchanged. -/
theorem cy_frame_24 (st : State8080) (hop : st.memory st.pc = 0x24) :
    resCY (emulate_op st) = st.cc.cy := by
  unfold emulate_op; rw [hop]; rfl

/-- Dispatch of opcode 0x2c (INR/DCR family) leaves the Carry flag unchanged. -/
theorem cy_frame_2c (st : State8080) (hop : st.memory st.pc = 0x2c) :
    resCY (emulate_op st) = st.cc.cy := by
  unfold emulate_op; rw [hop]; rfl

/-- Dispatch of opcode 0x34 (INR/DCR family) leaves the Carry flag unchanged. -/
theorem cy_frame_34 (st : State8080) (hop : st.memory st.pc = 0x34) :
    resCY (emulate_op st) = st.cc.cy := by
  unfold emulate_op; rw [hop]; rfl

/-- Dispatch of opcode 0x3c (INR/DCR family) leaves the Carry flag unchanged. -/
theorem cy_frame_3c (st : State8080) (hop : st.memory st.pc = 0x3c) :
    resCY (emulate_op st) = st.cc.cy := by
  unfold emulate_op; rw [hop]; rfl

/-- Dispatch of opcode 0x05 (INR/DCR family) leaves the Carry flag unchanged. -/
theorem cy_frame_05 (st : State8080) (hop : st.memory st.pc = 0x05) :
    resCY (emulate_op st) = st.cc.cy := by
  unfold emulate_op; rw [hop]; rfl

/-- Dispatch of opcode 0x0d (INR/DCR family) leaves the Carry flag unchanged. -/
theorem cy_frame_0d (st : State8080) (hop : st.memory st.pc = 0x0d) :
    resCY (emulate_op st) = st.cc.cy := by
  unfold emulate_op; rw [hop]; rfl

/-- Dispatch of opcode 0x15 (INR/DCR family) leaves the Carry flag unchanged. -/
theorem cy_frame_15 (st : State8080) (hop : st.memory st.pc = 0x15) :
    resCY (emulate_op st) = st.cc.cy := by
  unfold emulate_op; rw [hop]; rfl

/-- Dispatch of opcode 0x1d (INR/DCR family) leaves the Carry flag unchanged. -/
theorem cy_frame_1d (st : State8080) (hop : st.memory st.pc = 0x1d) :
    resCY (emulate_op st) = st.cc.cy := by
  unfold emulate_op; rw [hop]; rfl

/-- Dispatch of opcode 0x25 (INR/DCR family) leaves the Carry flag unchanged. -/
theorem cy_frame_25 (st : State8080) (hop : st.memory st.pc = 0x25) :
    resCY (emulate_op st) = st.cc.cy := by
  unfold emulate_op; rw [hop]; rfl

/-- Dispatch of opcode 0x2d (INR/DCR family) leaves the Carry flag unchanged. -/
theorem cy_frame_2d (st : State8080) (hop : st.memory st.pc = 0x2d) :
    resCY (emulate_op st) = st.cc.cy := by
  unfold emulate_op; rw [hop]; rfl

/-- Dispatch of opcode 0x35 (INR/DCR family) leaves the Carry flag unchanged. -/
theorem cy_frame_35 (st : State8080) (hop : st.memory st.pc = 0x35) :
    resCY (emulate_op st) = st.cc.cy := by
  unfold emulate_op; rw [hop]; rfl

/-- Dispatch of opcode 0x3d (INR/DCR family) leaves the Carry flag unchanged. -/
theorem cy_frame_3d (st : State8080) (hop : st.memory st.pc = 0x3d) :
    resCY (emulate_op st) = st.cc.cy := by
  unfold emulate_op; rw [hop]; rfl

/-- Dispatch of opcode 0x03 (INX/DCX family) leaves every flag unchanged. -/
theorem cc_frame_03 (st : State8080) (hop : st.memory st.pc = 0x03) :
    resCC (emulate_op st) = st.cc := by
  unfold emulate_op; rw [hop]; rfl

/-- Dispatch of opcode 0x13 (INX/DCX family) leaves every flag unchanged. -/
theorem cc_frame_13 (st : State8080) (hop : st.memory st.pc = 0x13) :
    resCC (emulate_op st) = st.cc := by
  unfold emulate_op; rw [hop]; rfl

/-- Dispatch of opcode 0x23 (INX/DCX family) leaves every flag unchanged. -/
theorem cc_frame_23 (st : State8080) (hop : st.memory st.pc = 0x23) :
    resCC (emulate_op st) = st.cc := by
  unfold emulate_op; rw [hop]; rfl

/-- Dispatch of opcode 0x33 (INX/DCX family) leaves every flag unchanged. -/
theorem cc_frame_33 (st : State8080) (hop : st.memory st.pc = 0x33) :
    resCC (emulate_op st) = st.cc := by
  unfold emulate_op; rw [hop]; rfl

/-- Dispatch of opcode 0x0b (INX/DCX family) leaves every flag unchanged. -/
theorem cc_frame_0b (st : State8080) (hop : st.memory st.pc = 0x0b) :
    resCC (emulate_op st) = st.cc := by
  unfold emulate_op; rw [hop]; rfl

/-- Dispatch of opcode 0x1b (INX/DCX family) leaves every flag unchanged. -/
theorem cc_frame_1b (st : State8080) (hop : st.memory st.pc = 0x1b) :
    resCC (emulate_op st) = st.cc := by
  unfold emulate_op; rw [hop]; rfl

/-- Dispatch of opcode 0x2b (INX/DCX family) leaves every flag unchanged. -/
theorem cc_frame_2b (st : State8080) (hop : st.memory st.pc = 0x2b) :
    resCC (emulate_op st) = st.cc := by
  unfold emulate_op; rw [hop]; rfl

/-- Dispatch of opcode 0x3b (INX/DCX family) leaves every flag unchanged. -/
theorem cc_frame_3b (st : State8080) (hop : st.memory st.pc = 0x3b) :
    resCC (emulate_op st) = st.cc := by
  unfold emulate_op; rw [hop]; rfl

/-- C8: every INR/DCR opcode (register or HL-addressed memory form) leaves
the Carry flag unchanged (its flag mask selects only Z, S, P, AC), and every
INX/DCX opcode (register pairs and SP) leaves the whole flag record
unchanged. -/
theorem c8_inc_dec_flag_frame (st : State8080) (op : Nat)
    (hop : st.memory st.pc = op) :
    (op ∈ inrDcrOpcodes → resCY (emulate_op st) = st.cc.cy) ∧
    (op ∈ inxDcxOpcodes → resCC (emulate_op st) = st.cc) := by
  refine ⟨fun hmem => ?_, fun hmem => ?_⟩
  · simp only [inrDcrOpcodes, List.mem_cons, List.mem_nil_iff, or_false] at hmem
    rcases hmem with rfl|rfl|rfl|rfl|rfl|rfl|rfl|rfl|rfl|rfl|rfl|rfl|rfl|rfl|rfl|rfl
    · exact cy_frame_04 st hop
    · exact cy_frame_0c st hop
    · exact cy_frame_14 st hop
    · exact cy_frame_1c st hop
    · exact cy_frame_24 st hop
    · exact cy_frame_2c st hop
    · exact cy_frame_34 st hop
    · exact cy_frame_3c st hop
    · exact cy_frame_05 st hop
    · exact cy_frame_0d st hop
    · exact cy_frame_15 st hop
    · exact cy_frame_1d st hop
    · exact cy_frame_25 st hop
    · exact cy_frame_2d st hop
    · exact cy_frame_35 st hop
    · exact cy_frame_3d st hop
  · simp only [inxDcxOpcodes, List.mem_cons, List.mem_nil_iff, or_false] at hmem
    rcases hmem with rfl|rfl|rfl|rfl|rfl|rfl|rfl|rfl
    · exact cc_frame_03 st hop
    · exact cc_frame_13 st hop
    · exact cc_frame_23 st hop
    · exact cc_frame_33 st hop
    · exact cc_frame_0b st hop
    · exact cc_frame_1b st hop
    · exact cc_frame_2b st hop
    · exact cc_frame_3b st hop

/-- Witness for C8: INR B on B = 0xFF with CY set keeps CY set, and INX B
on BC = 0xFFFF keeps the whole flag record. -/
theorem c8_inc_dec_flag_frame_witness :
    resCY (emulate_op inrState) = inrState.cc.cy ∧
    resCC (emulate_op inxState) = inxState.cc :=
  ⟨(c8_inc_dec_flag_frame inrState 0x04 rfl).1 (by decide),
   (c8_inc_dec_flag_frame inxState 0x03 rfl).2 (by decide)⟩

/-- Single-step effect of RAL (0x17). -/
theorem emulate_ral (st : State8080) (hop : st.memory st.pc = 0x17) :
    emulate_op st = .ok
      { st with
        a := ((st.a <<< 1) ||| ofBool st.cc.cy) % 0x100
        cc := { st.cc with cy := lowBit (st.a >>> 7) }
        pc := (st.pc + 1) % 0x10000 } := by
  unfold emulate_op
  rw [hop]
  rfl

/-- Single-step effect of RAR (0x1F). -/
theorem emulate_rar (st : State8080) (hop : st.memory st.pc = 0x1f) :
    emulate_op st = .ok
      { st with
        a := ((st.a >>> 1) ||| (ofBool st.cc.cy <<< 7)) % 0x100
        cc := { st.cc with cy := lowBit (st.a &&& 1) }
        pc := (st.pc + 1) % 0x10000 } := by
  unfold emulate_op
  rw [hop]
  rfl

/-- Bit-level core of the RAL-then-RAR round trip, checked for every byte
and every starting carry. -/
theorem ral_rar_bits : ∀ av, av < 256 → ∀ cv : Bool,
    ((((av <<< 1) ||| ofBool cv) % 0x100) >>> 1 |||
      (ofBool (lowBit (av >>> 7)) <<< 7)) % 0x100 = av ∧
    lowBit ((((av <<< 1) ||| ofBool cv) % 0x100) &&& 1) = cv := by
  decide

/-- C9: executing RAL and then RAR (with the second opcode at the advanced
PC) restores both the accumulator and the Carry flag to their original
values, for every byte-valued accumulator and every starting carry. -/
theorem c9_ral_rar_roundtrip (st : State8080) (ha : st.a < 256)
    (h1 : st.memory st.pc = 0x17)
    (h2 : st.memory ((st.pc + 1) % 0x10000) = 0x1f) :
    resA ((emulate_op st).bind emulate_op) = st.a ∧
    resCY ((emulate_op st).bind emulate_op) = st.cc.cy := by
  rw [emulate_ral st h1]
  have e2 := emulate_rar
    { st with
      a := ((st.a <<< 1) ||| ofBool st.cc.cy) % 0x100
      cc := { st.cc with cy := lowBit (st.a >>> 7) }
      pc := (st.pc + 1) % 0x10000 } h2
  show resA (emulate_op
    { st with
      a := ((st.a <<< 1) ||| ofBool st.cc.cy) % 0x100
      cc := { st.cc with cy := lowBit (st.a >>> 7) }
      pc := (st.pc + 1) % 0x10000 }) = st.a ∧
    resCY (emulate_op
    { st with
      a := ((st.a <<< 1) ||| ofBool st.cc.cy) % 0x100
      cc := { st.cc with cy := lowBit (st.a >>> 7) }
      pc := (st.pc + 1) % 0x10000 }) = st.cc.cy
  rw [e2]
  exact ⟨(ral_rar_bits st.a ha st.cc.cy).1, (ral_rar_bits st.a ha st.cc.cy).2⟩

/-- Witness for C9 with accumulator 0xB5 and carry set. -/
theorem c9_ral_rar_roundtrip_witness :
    resA ((emulate_op ralRarState).bind emulate_op) = ralRarState.a ∧
    resCY ((emulate_op ralRarState).bind emulate_op) = ralRarState.cc.cy :=
  c9_ral_rar_roundtrip ralRarState (by decide) rfl rfl

/-- Dispatch of the register-to-itself move 0x40: only the trailing PC
advance is applied. -/
theorem mov_self_40 (st : State8080) (hop : st.memory st.pc = 0x40) :
    emulate_op st = .ok { st with pc := (st.pc + 1) % 0x10000 } := by
  unfold emulate_op; rw [hop]; rfl

/-- Dispatch of the register-to-itself move 0x49: only the trailing PC
advance is applied. -/
theorem mov_self_49 (st : State8080) (hop : st.memory st.pc = 0x49) :
    emulate_op st = .ok { st with pc := (st.pc + 1) % 0x10000 } := by
  unfold emulate_op; rw [hop]; rfl

/-- Dispatch of the register-to-itself move 0x52: only the trailing PC
advance is applied. -/
theorem mov_self_52 (st : State8080) (hop : st.memory st.pc = 0x52) :
    emulate_op st = .ok { st with pc := (st.pc + 1) % 0x10000 } := by
  unfold emulate_op; rw [hop]; rfl

/-- Dispatch of the register-to-itself move 0x5b: only the trailing PC
advance is applied. -/
theorem mov_self_5b (st : State8080) (hop : st.memory st.pc = 0x5b) :
    emulate_op st = .ok { st with pc := (st.pc + 1) % 0x10000 } := by
  unfold emulate_op; rw [hop]; rfl

/-- Dispatch of the register-to-itself move 0x64: only the trailing PC
advance is applied. -/
theorem mov_self_64 (st : State8080) (hop : st.memory st.pc = 0x64) :
    emulate_op st = .ok { st with pc := (st.pc + 1) % 0x10000 } := by
  unfold emulate_op; rw [hop]; rfl

/-- Dispatch of the register-to-itself move 0x6d: only the trailing PC
advance is applied. -/
theorem mov_self_6d (st : State8080) (hop : st.memory st.pc = 0x6d) :
    emulate_op st = .ok { st with pc := (st.pc + 1) % 0x10000 } := by
  unfold emulate_op; rw [hop]; rfl

/-- Dispatch of the register-to-itself move 0x7f: only the trailing PC
advance is applied. -/
theorem mov_self_7f (st : State8080) (hop : st.memory st.pc = 0x7f) :
    emulate_op st = .ok { st with pc := (st.pc + 1) % 0x10000 } := by
  unfold emulate_op; rw [hop]; rfl

/-- C10: a register-to-itself move changes nothing: the dispatch result is
the starting state with only the standard trailing PC advance past the
one-byte opcode applied; registers, flags, SP and memory are untouched. -/
theorem c10_mov_self_identity (st : State8080) (op : Nat)
    (hop : st.memory st.pc = op) (hmem : op ∈ selfMovOpcodes) :
    emulate_op st = .ok { st with pc := (st.pc + 1) % 0x10000 } := by
  simp only [selfMovOpcodes, List.mem_cons, List.mem_nil_iff, or_false] at hmem
  rcases hmem with rfl|rfl|rfl|rfl|rfl|rfl|rfl
  · exact mov_self_40 st hop
  · exact mov_self_49 st hop
  · exact mov_self_52 st hop
  · exact mov_self_5b st hop
  · exact mov_self_64 st hop
  · exact mov_self_6d st hop
  · exact mov_self_7f st hop

/-- Witness for C10: MOV B,B at address 0. -/
theorem c10_mov_self_identity_witness :
    emulate_op movState = .ok { movState with pc := (movState.pc + 1) % 0x10000 } :=
  c10_mov_self_identity movState 0x40 rfl (by decide)

end Emu8080
